import Mathlib

/-!
Verification of the BuildBytes LMS backend (`backend/server.py`): a shallow
embedding of the authentication, authorization and CRUD layers, with theorems
settling the behavioural claims about password policy, token issuance and
verification, role gating, ownership checks and storage effects.

Conventions of the embedding:
- Python strings are `String`, datetimes are `Int` seconds since the epoch.
- The MongoDB collections are Lean lists of document structures; `find_one`
  is `List.find?`, `insert_one` appends, `update_one`/`delete_one` act on the
  first match (`updateFirst` / `deleteFirst`).
- Handlers are pure functions from a database state (plus the effect inputs
  that Python draws from the environment: fresh uuid, current time, salt,
  secret) to a pair of the post-state and an `Except` result. A raised
  `HTTPException(status, detail)` is `.error (.http status detail)`; an
  uncaught Python-level exception is `.error (.attrError msg)`.
-/

deriving instance DecidableEq for Except

namespace LMS

/-- Errors a handler can surface: an HTTPException carrying a status code and
detail string, or an uncaught Python-level exception (used to model the
`AttributeError` raised when an `except` clause names a nonexistent
attribute). -/
inductive PyErr : Type where
  | http (statusCode : Nat) (detail : String)
  | attrError (detail : String)
deriving DecidableEq

/-! ## Password policy and hashing (`validate_password`, `hash_password`,
`verify_password`, server.py lines 52-75) -/

/-- Embedding of `validate_password` (server.py 52-62): length at least 8 and
a regex search for each of `[A-Z]`, `[a-z]`, `[0-9]`, with the early returns
of the source kept as nested conditionals. -/
def validate_password (password : String) : Bool :=
  if password.length < 8 then false
  else if !(password.data.any fun c => decide ('A' ≤ c ∧ c ≤ 'Z')) then false
  else if !(password.data.any fun c => decide ('a' ≤ c ∧ c ≤ 'z')) then false
  else if !(password.data.any fun c => decide ('0' ≤ c ∧ c ≤ '9')) then false
  else true

/-- Modelled from the spec: the bcrypt primitive (an external library, not in
src/). A hash value embeds the salt used to produce it together with the
one-way digest of (salt, password); per the spec the digest determines the
password that was hashed (round-trip property), so the digest component is
idealized as the password itself. -/
structure BcryptHash : Type where
  salt : Nat
  digest : String
deriving DecidableEq

/-- Modelled from the spec: `bcrypt.hashpw` as an injective function of the
salt and the password. -/
def bcryptHashpw (password : String) (salt : Nat) : BcryptHash :=
  { salt := salt, digest := password }

/-- Embedding of `hash_password` (server.py 65-69); the salt that Python draws
from `bcrypt.gensalt()` is an explicit argument. -/
def hash_password (password : String) (salt : Nat) : BcryptHash :=
  bcryptHashpw password salt

/-- Embedding of `verify_password` (server.py 71-75): `bcrypt.checkpw`
recomputes the digest with the salt embedded in the stored hash and compares. -/
def verify_password (password : String) (hashed : BcryptHash) : Bool :=
  decide (bcryptHashpw password hashed.salt = hashed)

/-! ## JWT token service (`create_access_token`, `verify_token`,
server.py lines 78-104) -/

/-- JWT payload as built by `create_access_token`: user id, email, expiry and
issued-at times in whole seconds. -/
structure TokenPayload : Type where
  user_id : String
  email : String
  exp : Int
  iat : Int
deriving DecidableEq

/-- A compact JWT: its decoded payload together with the signature segment as
a list of bytes. -/
structure Token : Type where
  payload : TokenPayload
  sig : List Nat
deriving DecidableEq

/-- Code points of a string, used to feed strings into the signature model. -/
def strBytes (s : String) : List Nat :=
  s.data.map (fun c => c.toNat)

/-- Serialization of a payload for signing. -/
def serializePayload (p : TokenPayload) : List Nat :=
  strBytes p.user_id ++ [1114112] ++ strBytes p.email ++ [1114112]
    ++ [p.exp.toNat, (-p.exp).toNat, p.iat.toNat, (-p.iat).toNat]

/-- Modelled from the spec: the MAC/signature primitive the external jwt
library applies under `JWT_ALGORITHM` (not in src/). It is a deterministic
function of the server secret and the payload producing the signature bytes
of the token; the cryptographic compression function is abstracted to a
concrete stand-in hash. -/
def hmacSign (secret : String) (p : TokenPayload) : List Nat :=
  let h := (strBytes secret ++ [1114112] ++ serializePayload p).foldl
    (fun a b => (a * 131 + b + 1) % 4294967296) 0
  [h % 256, (h / 256) % 256, (h / 65536) % 256, (h / 16777216) % 256]

/-- Exceptions of the external jwt library relevant to `verify_token`. -/
inductive JwtException : Type where
  | invalidSignature
  | expiredSignature
deriving DecidableEq

/-- Modelled from the spec: `jwt.decode` of the external PyJWT library (not in
src/): it validates the signature against the secret, then rejects the token
as expired when the check time has reached `exp` (PyJWT raises
`ExpiredSignatureError` when `exp <= now` with zero leeway); otherwise it
returns the payload. -/
def jwtDecode (secret : String) (now : Int) (t : Token) :
    Except JwtException TokenPayload :=
  if t.sig ≠ hmacSign secret t.payload then .error .invalidSignature
  else if t.payload.exp ≤ now then .error .expiredSignature
  else .ok t.payload

/-- Embedding of `create_access_token` (server.py 78-86). The globals
`JWT_SECRET` and `JWT_EXPIRATION_HOURS` and the current time are explicit
arguments; `exp` is `now` plus the configured hours. -/
def create_access_token (secret : String) (expirationHours : Int)
    (user_id : String) (email : String) (now : Int) : Token :=
  let payload : TokenPayload :=
    { user_id := user_id, email := email
      exp := now + expirationHours * 3600, iat := now }
  { payload := payload, sig := hmacSign secret payload }

/-- Embedding of `verify_token` (server.py 88-104). An expired token is
caught by the first clause (`except jwt.ExpiredSignatureError`) and becomes
HTTP 401 "Token has expired". The second clause is written
`except jwt.JWTError`, but the PyJWT module (`import jwt`) defines no
attribute `JWTError` (that name belongs to python-jose), so when
`jwt.decode` raises an invalid-signature error, evaluating the second clause
raises `AttributeError` and the HTTP 401 "Could not validate credentials"
branch is unreachable. -/
def verify_token (secret : String) (now : Int) (t : Token) :
    Except PyErr TokenPayload :=
  match jwtDecode secret now t with
  | .ok payload => .ok payload
  | .error .expiredSignature => .error (.http 401 "Token has expired")
  | .error .invalidSignature =>
      .error (.attrError "module jwt has no attribute JWTError")

/-- A concrete valid token for exercising the tampering path. -/
def c4token : Token := create_access_token "k" 1 "u" "e" 0

/-- `c4token` with the first byte of its signature segment replaced by a
different byte value. -/
def c4tampered : Token :=
  { payload := c4token.payload
    sig := ((c4token.sig.headD 0 + 1) % 256) :: c4token.sig.drop 1 }

/-! ## Storage model: MongoDB collections as lists of documents -/

/-- A document of the `users` collection as written by `register`
(server.py 356-363). -/
structure UserDoc : Type where
  id : String
  email : String
  name : String
  role : String
  password : BcryptHash
  created_at : Int
deriving DecidableEq

/-- A document of the `subject_categories` collection (`SubjectCategory`,
server.py 136-143). -/
structure CategoryDoc : Type where
  id : String
  name : String
  description : String
  color : Option String
  icon : Option String
  created_by : String
  created_at : Int
deriving DecidableEq

/-- A document of the `projects` collection (`Project`, server.py 157-164). -/
structure ProjectDoc : Type where
  id : String
  title : String
  description : String
  subject_category_id : String
  assigned_students : List String
  created_by : String
  created_at : Int
deriving DecidableEq

/-- A document of the `tasks` collection (`Task`, server.py 172-179). -/
structure TaskDoc : Type where
  id : String
  project_id : String
  title : String
  description : String
  deadline : Option Int
  status : String
  created_at : Int
deriving DecidableEq

/-- The database state: the collections the verified handlers touch. -/
structure DB : Type where
  users : List UserDoc
  subject_categories : List CategoryDoc
  projects : List ProjectDoc
  tasks : List TaskDoc
deriving DecidableEq

/-- Mongo `update_one`: apply `f` to the first element satisfying `p`. -/
def updateFirst {α : Type} (l : List α) (p : α → Bool) (f : α → α) : List α :=
  match l with
  | [] => []
  | x :: xs => if p x then f x :: xs else x :: updateFirst xs p f

/-- Mongo `delete_one`: remove the first element satisfying `p`. -/
def deleteFirst {α : Type} (l : List α) (p : α → Bool) : List α :=
  match l with
  | [] => []
  | x :: xs => if p x then xs else x :: deleteFirst xs p

/-! ## Request and response shapes -/

/-- The authenticated caller as resolved by `get_current_user`
(server.py 283-315): the stored user record without its password hash. -/
structure User : Type where
  id : String
  email : String
  name : String
  role : String
  created_at : Int
deriving DecidableEq

/-- `UserRegistration` request body (server.py 107-111). -/
structure UserRegistration : Type where
  name : String
  email : String
  password : String
  role : String
deriving DecidableEq

/-- `UserResponse` (server.py 124-129). -/
structure UserResponse : Type where
  id : String
  email : String
  name : String
  role : String
  created_at : Int
deriving DecidableEq

/-- `LoginResponse` (server.py 131-134). -/
structure LoginResponse : Type where
  access_token : Token
  token_type : String
  user : UserResponse
deriving DecidableEq

/-- `SubjectCategoryCreate` request body (server.py 145-149). -/
structure SubjectCategoryCreate : Type where
  name : String
  description : String
  color : Option String
  icon : Option String
deriving DecidableEq

/-- `SubjectCategoryUpdate` request body (server.py 151-155); `none` fields
are absent and left untouched by the update. -/
structure SubjectCategoryUpdate : Type where
  name : Option String
  description : Option String
  color : Option String
  icon : Option String
deriving DecidableEq

/-! ## Handlers -/

/-- Embedding of the `require_mentor` dependency (server.py 318-324). -/
def require_mentor (current_user : User) : Except PyErr User :=
  if current_user.role ≠ "mentor" then
    .error (.http 403 "Only mentors can access this endpoint")
  else .ok current_user

/-- Embedding of `register` (server.py 327-383). The fresh uuid, the bcrypt
salt, the current time and the JWT configuration are explicit arguments.
Checks run in source order: password strength, then role, then duplicate
email; only then is the user document inserted and a token issued. -/
def register (db : DB) (rd : UserRegistration) (newId : String) (salt : Nat)
    (now : Int) (secret : String) (expirationHours : Int) :
    DB × Except PyErr LoginResponse :=
  if !validate_password rd.password then
    (db, .error (.http 400 "Password must be at least 8 characters long and contain at least one uppercase letter, one lowercase letter, and one number"))
  else if !(rd.role == "mentor" || rd.role == "student") then
    (db, .error (.http 400 "Role must be either \x27mentor\x27 or \x27student\x27"))
  else
    match db.users.find? (fun u => u.email == rd.email) with
    | some _ => (db, .error (.http 409 "User with this email already exists"))
    | none =>
      let hashed := hash_password rd.password salt
      let doc : UserDoc :=
        { id := newId, email := rd.email, name := rd.name, role := rd.role
          password := hashed, created_at := now }
      ({ db with users := db.users ++ [doc] },
       .ok { access_token := create_access_token secret expirationHours newId rd.email now
             token_type := "bearer"
             user := { id := newId, email := rd.email, name := rd.name
                       role := rd.role, created_at := now } })

/-- Embedding of `update_user_role` (server.py 436-451): after the mentor
gate and the role whitelist, it issues `update_one` on the users collection —
with no check that a user with `user_id` exists — and unconditionally returns
the success message. -/
def update_user_role (db : DB) (user_id : String) (role : String)
    (current_user : User) : DB × Except PyErr String :=
  match require_mentor current_user with
  | .error e => (db, .error e)
  | .ok _ =>
    if !(role == "mentor" || role == "student") then
      (db, .error (.http 400 "Invalid role"))
    else
      ({ db with users := (updateFirst db.users (fun u => u.id == user_id)
            (fun u => { u with role := role })) },
       .ok ("User role updated to " ++ role))

/-- Embedding of `get_subject_category` (server.py 476-486). -/
def get_subject_category (db : DB) (category_id : String) (_current_user : User) :
    DB × Except PyErr CategoryDoc :=
  match db.subject_categories.find? (fun c => c.id == category_id) with
  | none => (db, .error (.http 404 "Subject category not found"))
  | some category => (db, .ok category)

/-- Embedding of `create_subject_category` (server.py 460-474): mentor gate,
then insertion of the new category with `created_by` set to the caller's id. -/
def create_subject_category (db : DB) (category : SubjectCategoryCreate)
    (current_user : User) (newId : String) (now : Int) :
    DB × Except PyErr CategoryDoc :=
  match require_mentor current_user with
  | .error e => (db, .error e)
  | .ok cu =>
    let doc : CategoryDoc :=
      { id := newId, name := category.name, description := category.description
        color := category.color, icon := category.icon
        created_by := cu.id, created_at := now }
    ({ db with subject_categories := db.subject_categories ++ [doc] }, .ok doc)

/-- The `$set` of `update_subject_category`: only fields provided in the
request (non-`None` in Python) are overwritten. -/
def applyCategoryUpdate (u : SubjectCategoryUpdate) (c : CategoryDoc) : CategoryDoc :=
  { c with
    name := u.name.getD c.name
    description := u.description.getD c.description
    color := match u.color with | some v => some v | none => c.color
    icon := match u.icon with | some v => some v | none => c.icon }

/-- Embedding of `update_subject_category` (server.py 488-512): mentor gate,
404 when the category is missing, 403 when the caller is not its creator,
then `update_one` of the provided fields and a re-fetch of the document. -/
def update_subject_category (db : DB) (category_id : String)
    (category_update : SubjectCategoryUpdate) (current_user : User) :
    DB × Except PyErr CategoryDoc :=
  match require_mentor current_user with
  | .error e => (db, .error e)
  | .ok cu =>
    match db.subject_categories.find? (fun c => c.id == category_id) with
    | none => (db, .error (.http 404 "Subject category not found"))
    | some category =>
      if category.created_by ≠ cu.id then
        (db, .error (.http 403 "You can only update categories you created"))
      else
        let newCats := updateFirst db.subject_categories
          (fun c => c.id == category_id) (applyCategoryUpdate category_update)
        match newCats.find? (fun c => c.id == category_id) with
        | some updated => ({ db with subject_categories := newCats }, .ok updated)
        | none =>
            ({ db with subject_categories := newCats },
             .error (.attrError "updated category not found"))

/-- Embedding of `delete_subject_category` (server.py 514-537): mentor gate,
404 when missing, 403 when the caller is not the creator, 400 when at least
one project references the category, and only then `delete_one`. -/
def delete_subject_category (db : DB) (category_id : String)
    (current_user : User) : DB × Except PyErr String :=
  match require_mentor current_user with
  | .error e => (db, .error e)
  | .ok cu =>
    match db.subject_categories.find? (fun c => c.id == category_id) with
    | none => (db, .error (.http 404 "Subject category not found"))
    | some category =>
      if category.created_by ≠ cu.id then
        (db, .error (.http 403 "You can only delete categories you created"))
      else if db.projects.any (fun p => p.subject_category_id == category_id) then
        (db, .error (.http 400 "Cannot delete category with associated projects"))
      else
        ({ db with subject_categories :=
            deleteFirst db.subject_categories (fun c => c.id == category_id) },
         .ok "Subject category deleted successfully")

/-- Embedding of `get_projects` (server.py 540-555): the Mongo filter
combines the optional subject-category condition (skipped for an empty
string, mirroring Python truthiness) with, for student callers, membership
of the caller in `assigned_students`. -/
def get_projects (db : DB) (subject_category_id : Option String)
    (current_user : User) : List ProjectDoc :=
  let base :=
    match subject_category_id with
    | some sid =>
        if sid ≠ "" then db.projects.filter (fun p => p.subject_category_id == sid)
        else db.projects
    | none => db.projects
  if current_user.role == "student" then
    base.filter (fun p => p.assigned_students.contains current_user.id)
  else base

/-- Embedding of `get_tasks` (server.py 579-590): only the optional
project filter is applied (skipped for an empty string, mirroring Python
truthiness); the caller is not consulted. -/
def get_tasks (db : DB) (project_id : Option String) (_current_user : User) :
    List TaskDoc :=
  match project_id with
  | some pid =>
      if pid ≠ "" then db.tasks.filter (fun t => t.project_id == pid)
      else db.tasks
  | none => db.tasks

/-! ## Concrete stores and requests used by the closed theorems -/

/-- A store holding one user with email "a@b.com", for exhibiting the order
of the checks in `register`. -/
def c7db : DB :=
  { users := [{ id := "u1", email := "a@b.com", name := "Ann", role := "student"
                password := { salt := 0, digest := "Xx123456" }, created_at := 0 }]
    subject_categories := [], projects := [], tasks := [] }

/-- Registration request with a duplicate email, a valid password and an
invalid role. -/
def c7req : UserRegistration :=
  { name := "Bob", email := "a@b.com", password := "ValidPass123", role := "admin" }

/-- Database for the missing-target experiment: one mentor, no user "ghost",
no categories. -/
def c9db : DB :=
  { users := [{ id := "m1", email := "m@x.com", name := "M", role := "mentor"
                password := { salt := 0, digest := "Aa345678" }, created_at := 0 }]
    subject_categories := [], projects := [], tasks := [] }

/-- The mentor caller of the missing-target experiment. -/
def c9mentor : User := { id := "m1", email := "m@x.com", name := "M"
                         role := "mentor", created_at := 0 }

/-! ## Helper lemmas on list-backed collections -/

/-- A `find?` over an appended singleton hits the appended element when
nothing before it matches. -/
theorem find_append_single {α : Type} (l : List α) (c : α) (p : α → Bool)
    (h : ∀ x ∈ l, p x = false) (hc : p c = true) :
    (l ++ [c]).find? p = some c := by
  induction l with
  | nil => simp [List.find?, hc]
  | cons a as ih =>
    have ha : p a = false := h a (List.mem_cons_self a as)
    simp only [List.cons_append, List.find?, ha]
    exact ih (fun x hx => h x (List.mem_cons_of_mem a hx))

/-- A list with a satisfying element has a first satisfying element. -/
theorem exists_find_of_any {α : Type} (l : List α) (p : α → Bool)
    (h : l.any p = true) : ∃ x, l.find? p = some x := by
  induction l with
  | nil => simp at h
  | cons a as ih =>
    by_cases ha : p a = true
    · exact ⟨a, by simp [List.find?, ha]⟩
    · have ha' : p a = false := by simpa using ha
      simp only [List.any_cons, ha', Bool.false_or] at h
      obtain ⟨x, hx⟩ := ih h
      exact ⟨x, by simp [List.find?, ha', hx]⟩

/-- Every element surviving a filter satisfies the filter predicate. -/
theorem all_filter_self {α : Type} (l : List α) (p : α → Bool) :
    (l.filter p).all p = true := by
  simp only [List.all_eq_true]
  intro a ha
  exact (List.mem_filter.mp ha).2

/-! ## Password policy theorems -/

/-- C1: `validate_password p` is true iff `p` has length at least 8 and
contains an uppercase ASCII letter, a lowercase ASCII letter and a decimal
digit; moreover `validate_password "Short1" = false` and
`validate_password "ValidPass123" = true`. -/
theorem validate_password_correct (p : String) :
    (validate_password p = true ↔
      (8 ≤ p.length
        ∧ (∃ c ∈ p.data, 'A' ≤ c ∧ c ≤ 'Z')
        ∧ (∃ c ∈ p.data, 'a' ≤ c ∧ c ≤ 'z')
        ∧ (∃ c ∈ p.data, '0' ≤ c ∧ c ≤ '9')))
    ∧ validate_password "Short1" = false
    ∧ validate_password "ValidPass123" = true := by
  refine ⟨?_, by decide, by decide⟩
  unfold validate_password
  by_cases h1 : p.length < 8
  · simp only [h1, if_true]
    constructor
    · intro h
      exact absurd h (by simp)
    · intro h
      omega
  · simp only [h1, if_false]
    have h8 : 8 ≤ p.length := by omega
    by_cases h2 : (p.data.any fun c => decide ('A' ≤ c ∧ c ≤ 'Z')) = true
    · by_cases h3 : (p.data.any fun c => decide ('a' ≤ c ∧ c ≤ 'z')) = true
      · by_cases h4 : (p.data.any fun c => decide ('0' ≤ c ∧ c ≤ '9')) = true
        · simp only [h2, h3, h4, Bool.not_true, if_false]
          simp only [List.any_eq_true, decide_eq_true_eq] at h2 h3 h4
          simp [h8, h2, h3, h4]
        · simp only [h2, h3, h4, Bool.not_true, Bool.not_false, if_false, if_true]
          simp only [List.any_eq_true, decide_eq_true_eq] at h4
          simp [h4]
      · simp only [h2, h3, Bool.not_true, Bool.not_false, if_false, if_true]
        simp only [List.any_eq_true, decide_eq_true_eq] at h3
        simp [h3]
    · simp only [h2, Bool.not_false, if_true]
      simp only [List.any_eq_true, decide_eq_true_eq] at h2
      simp [h2]

/-- Witness for C1 at a concrete password. -/
theorem validate_password_correct_witness :
    (validate_password "Abcdefg1" = true ↔
      (8 ≤ ("Abcdefg1" : String).length
        ∧ (∃ c ∈ ("Abcdefg1" : String).data, 'A' ≤ c ∧ c ≤ 'Z')
        ∧ (∃ c ∈ ("Abcdefg1" : String).data, 'a' ≤ c ∧ c ≤ 'z')
        ∧ (∃ c ∈ ("Abcdefg1" : String).data, '0' ≤ c ∧ c ≤ '9')))
    ∧ validate_password "Short1" = false
    ∧ validate_password "ValidPass123" = true :=
  validate_password_correct "Abcdefg1"

/-- C2: for every password accepted by `validate_password` and every salt,
verifying the password against its own hash succeeds, and verifying the
password with `"x"` appended against that hash fails. -/
theorem password_hash_roundtrip (p : String) (salt : Nat)
    (_h : validate_password p = true) :
    verify_password p (hash_password p salt) = true
    ∧ verify_password (p ++ "x") (hash_password p salt) = false := by
  constructor
  · simp [verify_password, hash_password, bcryptHashpw]
  · simp only [verify_password, hash_password, bcryptHashpw, decide_eq_false_iff_not]
    intro he
    have hd : p ++ "x" = p := congrArg BcryptHash.digest he
    have hlen := congrArg String.length hd
    rw [String.length_append] at hlen
    have : ("x" : String).length = 1 := by decide
    omega

/-- Witness for C2 at `p = "ValidPass123"`, `salt = 0`. -/
theorem password_hash_roundtrip_witness :
    validate_password "ValidPass123" = true
    ∧ (verify_password "ValidPass123" (hash_password "ValidPass123" 0) = true
       ∧ verify_password ("ValidPass123" ++ "x") (hash_password "ValidPass123" 0) = false) :=
  ⟨by decide, password_hash_roundtrip "ValidPass123" 0 (by decide)⟩

/-! ## Token service theorems -/

/-- C3: a token issued at `iat` with configured expiry `N` hours verifies to
its payload at any check time strictly before `iat + N` hours, and fails with
HTTP 401 "Token has expired" at or after that boundary. -/
theorem token_expiry_window (secret uid email : String) (iat N now : Int) :
    (now < iat + N * 3600 →
      verify_token secret now (create_access_token secret N uid email iat)
        = .ok { user_id := uid, email := email, exp := iat + N * 3600, iat := iat })
    ∧ (iat + N * 3600 ≤ now →
      verify_token secret now (create_access_token secret N uid email iat)
        = .error (.http 401 "Token has expired")) := by
  have hsig : ¬((create_access_token secret N uid email iat).sig
      ≠ hmacSign secret (create_access_token secret N uid email iat).payload) :=
    fun hne => hne rfl
  constructor
  · intro h
    have hexp : ¬(iat + N * 3600 ≤ now) := by omega
    simp [verify_token, jwtDecode, hsig, create_access_token, hexp]
  · intro h
    have hexp : iat + N * 3600 ≤ now := h
    simp [verify_token, jwtDecode, hsig, create_access_token, hexp]

/-- Witness for C3: a token issued at time 0 with a 1-hour expiry verifies at
time 10 and is rejected as expired at time 3600. -/
theorem token_expiry_window_witness :
    verify_token "k" 10 (create_access_token "k" 1 "u" "e" 0)
      = .ok { user_id := "u", email := "e", exp := 0 + 1 * 3600, iat := 0 }
    ∧ verify_token "k" 3600 (create_access_token "k" 1 "u" "e" 0)
      = .error (.http 401 "Token has expired") :=
  ⟨(token_expiry_window "k" "u" "e" 0 1 10).1 (by decide),
   (token_expiry_window "k" "u" "e" 0 1 3600).2 (by decide)⟩

/-- C4 (code bug): altering a byte of a valid token's signature makes
verification fail — it never succeeds and never yields a different payload —
but the failure is an uncaught `AttributeError` (the source's
`except jwt.JWTError` names an attribute PyJWT does not define), not the
HTTP 401 "Could not validate credentials" response the claim describes. -/
theorem tampered_signature_attribute_error :
    c4tampered.payload = c4token.payload
    ∧ c4tampered.sig ≠ c4token.sig
    ∧ c4tampered.sig.length = c4token.sig.length
    ∧ verify_token "k" 0 c4tampered
        = .error (.attrError "module jwt has no attribute JWTError")
    ∧ verify_token "k" 0 c4tampered
        ≠ .error (.http 401 "Could not validate credentials") := by
  refine ⟨rfl, by decide, by decide, ?_, ?_⟩ <;> decide

/-! ## Ownership and role-gating theorems -/

/-- C5: a category created by mentor A cannot be updated or deleted by a
different mentor B — both attempts return HTTP 403 and leave the database
exactly as it was after the creation. -/
theorem category_ownership_guard
    (db : DB) (cc : SubjectCategoryCreate) (upd : SubjectCategoryUpdate)
    (A B : User) (newId : String) (now : Int)
    (hA : A.role = "mentor") (hB : B.role = "mentor") (hne : B.id ≠ A.id)
    (hfresh : ∀ c ∈ db.subject_categories, c.id ≠ newId) :
    update_subject_category (create_subject_category db cc A newId now).1 newId upd B
      = ((create_subject_category db cc A newId now).1,
          .error (.http 403 "You can only update categories you created"))
    ∧ delete_subject_category (create_subject_category db cc A newId now).1 newId B
      = ((create_subject_category db cc A newId now).1,
          .error (.http 403 "You can only delete categories you created")) := by
  have hnone : db.subject_categories.find? (fun c => c.id == newId) = none :=
    List.find?_eq_none.mpr (fun x hx => by simpa using hfresh x hx)
  have hne' : ¬(A.id = B.id) := fun he => hne he.symm
  constructor
  · simp [update_subject_category, create_subject_category, require_mentor,
      hA, hB, hnone, hne']
  · simp [delete_subject_category, create_subject_category, require_mentor,
      hA, hB, hnone, hne']

/-- Witness for C5 on an initially empty store with two concrete mentors. -/
theorem category_ownership_guard_witness :
    update_subject_category
        (create_subject_category ⟨[], [], [], []⟩ ⟨"Math", "d", some "#3B82F6", none⟩
          ⟨"a1", "a@x.com", "A", "mentor", 0⟩ "cat1" 5).1
        "cat1" ⟨some "New", none, none, none⟩ ⟨"b1", "b@x.com", "B", "mentor", 0⟩
      = ((create_subject_category ⟨[], [], [], []⟩ ⟨"Math", "d", some "#3B82F6", none⟩
            ⟨"a1", "a@x.com", "A", "mentor", 0⟩ "cat1" 5).1,
          .error (.http 403 "You can only update categories you created"))
    ∧ delete_subject_category
        (create_subject_category ⟨[], [], [], []⟩ ⟨"Math", "d", some "#3B82F6", none⟩
          ⟨"a1", "a@x.com", "A", "mentor", 0⟩ "cat1" 5).1
        "cat1" ⟨"b1", "b@x.com", "B", "mentor", 0⟩
      = ((create_subject_category ⟨[], [], [], []⟩ ⟨"Math", "d", some "#3B82F6", none⟩
            ⟨"a1", "a@x.com", "A", "mentor", 0⟩ "cat1" 5).1,
          .error (.http 403 "You can only delete categories you created")) :=
  category_ownership_guard ⟨[], [], [], []⟩ ⟨"Math", "d", some "#3B82F6", none⟩
    ⟨some "New", none, none, none⟩ ⟨"a1", "a@x.com", "A", "mentor", 0⟩
    ⟨"b1", "b@x.com", "B", "mentor", 0⟩ "cat1" 5 rfl rfl (by decide) (by decide)

/-- C6: `create_subject_category` rejects a student caller with HTTP 403 and
leaves the database untouched, whatever the payload; a mentor caller succeeds
and the created category carries `created_by` equal to the caller's id. -/
theorem create_category_role_gate (db : DB) (cc : SubjectCategoryCreate)
    (u : User) (newId : String) (now : Int) :
    (u.role = "student" →
      create_subject_category db cc u newId now
        = (db, .error (.http 403 "Only mentors can access this endpoint")))
    ∧ (u.role = "mentor" →
      create_subject_category db cc u newId now
        = ({ db with subject_categories := db.subject_categories ++
              [{ id := newId, name := cc.name, description := cc.description
                 color := cc.color, icon := cc.icon
                 created_by := u.id, created_at := now }] },
            .ok { id := newId, name := cc.name, description := cc.description
                  color := cc.color, icon := cc.icon
                  created_by := u.id, created_at := now })) := by
  constructor
  · intro h
    simp [create_subject_category, require_mentor, h]
  · intro h
    simp [create_subject_category, require_mentor, h]

/-- Witness for C6 with a concrete student and a concrete mentor. -/
theorem create_category_role_gate_witness :
    create_subject_category ⟨[], [], [], []⟩ ⟨"Math", "d", none, none⟩
        ⟨"s1", "s@x.com", "S", "student", 0⟩ "c1" 0
      = (⟨[], [], [], []⟩, .error (.http 403 "Only mentors can access this endpoint"))
    ∧ create_subject_category ⟨[], [], [], []⟩ ⟨"Math", "d", none, none⟩
        ⟨"m1", "m@x.com", "M", "mentor", 0⟩ "c1" 0
      = ({ users := [], subject_categories :=
            [] ++ [{ id := "c1", name := "Math", description := "d"
                     color := none, icon := none
                     created_by := "m1", created_at := 0 }]
           projects := [], tasks := [] },
          .ok { id := "c1", name := "Math", description := "d"
                color := none, icon := none
                created_by := "m1", created_at := 0 }) :=
  ⟨(create_category_role_gate ⟨[], [], [], []⟩ ⟨"Math", "d", none, none⟩
      ⟨"s1", "s@x.com", "S", "student", 0⟩ "c1" 0).1 rfl,
   (create_category_role_gate ⟨[], [], [], []⟩ ⟨"Math", "d", none, none⟩
      ⟨"m1", "m@x.com", "M", "mentor", 0⟩ "c1" 0).2 rfl⟩

/-! ## Registration theorems -/

/-- C7 counterexample: a request whose email already exists but whose role is
"admin" is rejected with the 400 role error, not with Conflict 409 — the role
check runs before the duplicate-email check, so the claim as stated fails. -/
theorem register_duplicate_email_not_conflict :
    (c7db.users.any (fun u => u.email == "a@b.com")) = true
    ∧ (register c7db c7req "u2" 0 0 "k" 1).2
        = .error (.http 400 "Role must be either \x27mentor\x27 or \x27student\x27")
    ∧ (register c7db c7req "u2" 0 0 "k" 1).2
        ≠ .error (.http 409 "User with this email already exists") := by
  refine ⟨by decide, by decide, by decide⟩

/-- C7 amended: when the password passes validation and the role is mentor or
student, a duplicate email is rejected with Conflict 409 and nothing is
stored; a request whose role is neither mentor nor student is rejected with
an HTTP 400 validation error and nothing is stored (when the password also
fails validation the 400 reports the password problem instead, since
password and role validation run before the duplicate-email check). -/
theorem register_checks_order (db : DB) (rd : UserRegistration)
    (newId : String) (salt : Nat) (now : Int) (secret : String)
    (expirationHours : Int) :
    (validate_password rd.password = true →
      (rd.role = "mentor" ∨ rd.role = "student") →
      db.users.any (fun u => u.email == rd.email) = true →
      register db rd newId salt now secret expirationHours
        = (db, .error (.http 409 "User with this email already exists")))
    ∧ ((rd.role ≠ "mentor" ∧ rd.role ≠ "student") →
      (register db rd newId salt now secret expirationHours).1 = db
      ∧ ∃ d, (register db rd newId salt now secret expirationHours).2
          = .error (.http 400 d)) := by
  constructor
  · intro hpw hrole hdup
    obtain ⟨w, hw⟩ := exists_find_of_any db.users (fun u => u.email == rd.email) hdup
    have hr : (rd.role == "mentor" || rd.role == "student") = true := by
      rcases hrole with h | h <;> simp [h]
    simp [register, hpw, hr, hw]
  · intro ⟨h1, h2⟩
    by_cases hpw : validate_password rd.password = true
    · have hb1 : (rd.role == "mentor") = false := by
        simpa using h1
      have hb2 : (rd.role == "student") = false := by
        simpa using h2
      refine ⟨?_, "Role must be either \x27mentor\x27 or \x27student\x27", ?_⟩ <;>
        simp [register, hpw, hb1, hb2]
    · have hpw' : validate_password rd.password = false := by
        simpa using hpw
      refine ⟨?_, "Password must be at least 8 characters long and contain at least one uppercase letter, one lowercase letter, and one number", ?_⟩ <;>
        simp [register, hpw']

/-- Witness for C7 amended: a valid duplicate-email request gets Conflict
409, and the "admin" request of the counterexample database gets a 400. -/
theorem register_checks_order_witness :
    register c7db { name := "Bob", email := "a@b.com", password := "ValidPass123",
                    role := "student" } "u2" 0 0 "k" 1
      = (c7db, .error (.http 409 "User with this email already exists"))
    ∧ ((register c7db c7req "u2" 0 0 "k" 1).1 = c7db
       ∧ ∃ d, (register c7db c7req "u2" 0 0 "k" 1).2 = .error (.http 400 d)) :=
  ⟨(register_checks_order c7db
      { name := "Bob", email := "a@b.com", password := "ValidPass123", role := "student" }
      "u2" 0 0 "k" 1).1 (by decide) (Or.inr rfl) (by decide),
   (register_checks_order c7db c7req "u2" 0 0 "k" 1).2 ⟨by decide, by decide⟩⟩

/-! ## Dependency-conflict and not-found theorems -/

/-- C8: deleting a category that some project references, called by its
mentor creator, fails with HTTP 400 "Cannot delete category with associated
projects" and returns the database unchanged, so the category and every
project are exactly as before. -/
theorem delete_category_dependency_conflict
    (db : DB) (cid : String) (u : User) (cat : CategoryDoc)
    (hm : u.role = "mentor")
    (hfind : db.subject_categories.find? (fun c => c.id == cid) = some cat)
    (hown : cat.created_by = u.id)
    (hdep : db.projects.any (fun p => p.subject_category_id == cid) = true) :
    delete_subject_category db cid u
      = (db, .error (.http 400 "Cannot delete category with associated projects")) := by
  have hdep' : ∃ p ∈ db.projects, p.subject_category_id = cid := by
    simpa using hdep
  simp [delete_subject_category, require_mentor, hm, hfind, hown, hdep']

/-- Witness for C8: one category, one dependent project, creator calling. -/
theorem delete_category_dependency_conflict_witness :
    delete_subject_category
        ⟨[], [⟨"c1", "Math", "d", none, none, "m1", 0⟩],
         [⟨"p1", "T", "d", "c1", [], "m1", 0⟩], []⟩
        "c1" ⟨"m1", "m@x.com", "M", "mentor", 0⟩
      = (⟨[], [⟨"c1", "Math", "d", none, none, "m1", 0⟩],
          [⟨"p1", "T", "d", "c1", [], "m1", 0⟩], []⟩,
         .error (.http 400 "Cannot delete category with associated projects")) :=
  delete_category_dependency_conflict
    ⟨[], [⟨"c1", "Math", "d", none, none, "m1", 0⟩],
     [⟨"p1", "T", "d", "c1", [], "m1", 0⟩], []⟩
    "c1" ⟨"m1", "m@x.com", "M", "mentor", 0⟩ ⟨"c1", "Math", "d", none, none, "m1", 0⟩
    rfl (by decide) rfl (by decide)

/-- C9 (code bug): `update_user_role` called by a mentor with a `user_id`
matching no stored user returns the success message and HTTP 200 with the
database unchanged, instead of the HTTP 404 the claim (and the spec's
not-found rule) requires; `get_subject_category` by contrast does return 404
for a missing id. -/
theorem update_user_role_missing_user_succeeds :
    (c9db.users.all (fun u => !(u.id == "ghost"))) = true
    ∧ update_user_role c9db "ghost" "student" c9mentor
        = (c9db, .ok "User role updated to student")
    ∧ get_subject_category c9db "ghost" c9mentor
        = (c9db, .error (.http 404 "Subject category not found")) := by
  refine ⟨by decide, by decide, by decide⟩

/-! ## Task listing theorem -/

/-- C10: `get_tasks` ignores the caller entirely — any two callers get the
same list, and a task is returned exactly when it is stored and matches the
optional project filter — while `get_projects` restricts a student caller to
projects that list the caller among `assigned_students`. -/
theorem get_tasks_unfiltered (db : DB) (pid : Option String) (u v : User)
    (f : Option String) :
    get_tasks db pid u = get_tasks db pid v
    ∧ (∀ t, t ∈ get_tasks db pid u
        ↔ (t ∈ db.tasks ∧ ∀ s, pid = some s → s ≠ "" → t.project_id = s))
    ∧ (u.role = "student" →
        (get_projects db f u).all
          (fun p => p.assigned_students.contains u.id) = true) := by
  refine ⟨rfl, ?_, ?_⟩
  · intro t
    cases pid with
    | none => simp [get_tasks]
    | some s =>
      by_cases hs : s = ""
      · subst hs
        simp [get_tasks]
      · simp [get_tasks, hs, List.mem_filter]
  · intro hrole
    have hb : (u.role == "student") = true := by simp [hrole]
    simp only [get_projects, hb, if_true]
    exact all_filter_self _ _

/-- Witness for C10: a student caller, a task store with a task from an
unrelated project, and the student-restricted project listing. -/
theorem get_tasks_unfiltered_witness :
    (get_projects
        ⟨[], [], [⟨"p1", "T", "d", "c1", ["s1"], "m1", 0⟩],
         [⟨"t1", "p9", "T", "d", none, "not_started", 0⟩]⟩
        none ⟨"s1", "s@x.com", "S", "student", 0⟩).all
      (fun p => p.assigned_students.contains
        (⟨"s1", "s@x.com", "S", "student", 0⟩ : User).id) = true :=
  (get_tasks_unfiltered
    ⟨[], [], [⟨"p1", "T", "d", "c1", ["s1"], "m1", 0⟩],
     [⟨"t1", "p9", "T", "d", none, "not_started", 0⟩]⟩
    none ⟨"s1", "s@x.com", "S", "student", 0⟩
    ⟨"m1", "m@x.com", "M", "mentor", 0⟩ none).2.2 rfl

end LMS
